import Mathlib

/-!
Shallow embedding of the voice-qa pipeline core
(src/core/connection.py, src/core/tts/base.py, src/core/asr/fun_local.py,
src/app.py) and verification of the frozen claims about it.

All definitions are translated from the Python source.  Machine effects
(filesystem, thread sleeps, backend calls) are made explicit: the
filesystem is a list of existing paths, and each model returns a trace
recording backend invocation counts, sleeps and deletions next to the
value the Python function returns.
-/

namespace VoiceQA

/-! ### Dialogue model (core/utils/dialogue wrappers used by connection.py)

`Dialogue.put` appends a `Message` to the ordered history. -/

structure Message where
  role : String
  content : String
  deriving Repr, DecidableEq

abbrev Dialogue := List Message

/-! ### ConnectionHandler.chat  (src/core/connection.py lines 49-98)

The LLM collaborator either raises (`except Exception ... return None`)
or yields a finite stream of chunks, each possibly `None` (the code
guards with `content is not None`).

The abort flag `self.client_abort` is reset to `False` at line 73, right
before the consumption loop; an external thread may set it afterwards.
We model the externally-visible schedule by `abortIdx : Option Nat`:
`some k` means the check at the top of loop iteration `k` (0-based) is
the first one that reads `True`; `none` means no check ever reads
`True`.  Since the flag stays set once set, every later check would also
read `True`, so the first `True` check determines the whole run. -/

inductive LLMResult where
  /-- `self.llm.response(...)` raises. -/
  | err : LLMResult
  /-- A finite stream of chunks, delivered in order. -/
  | ok (chunks : List (Option String)) : LLMResult
  deriving Repr, DecidableEq

/-- The chunks appended to `response_message`: chunks pulled before the
abort check fires, excluding `None` chunks and chunks with `len == 0`
(line 82: `if content is not None and len(content) > 0`). -/
def collectChunks (chunks : List (Option String)) (abortIdx : Option Nat) :
    List String :=
  let pulled := match abortIdx with
    | none => chunks
    | some k => chunks.take k
  (pulled.filterMap id).filter (fun s => s.length > 0)

/-- Python `None` vs `True` return of `chat`. -/
inductive ChatOutcome where
  | failure    -- `return None`
  | success    -- `return True`
  deriving Repr, DecidableEq

structure ChatResult where
  outcome : ChatOutcome
  dialogue : Dialogue
  ttsMessageText : String
  llmFinishTask : Bool
  /-- number of chunks pulled from the model iterator -/
  chunksRequested : Nat
  deriving Repr, DecidableEq

/-- Model of `ConnectionHandler.chat(query, depth)`.

* `dialogue0`, `ttsMessageText0` are the handler state on entry;
* at `depth = 0` the user message is appended first (line 56);
* an LLM exception returns `None` with `llm_finish_task` still `False`
  (lines 68-70 return before line 91);
* the streamed chunks are consumed subject to the abort schedule; the
  non-empty chunks are joined and, when the joined list is non-empty,
  stored in `tts_MessageText` and appended as an assistant message
  (lines 86-89); the call then returns `True` (line 98). -/
def chat (dialogue0 : Dialogue) (ttsMessageText0 : String)
    (query : String) (depth : Nat) (llm : LLMResult)
    (abortIdx : Option Nat) : ChatResult :=
  let d0 := if depth = 0 then dialogue0 ++ [⟨"user", query⟩] else dialogue0
  match llm with
  | .err =>
      { outcome := .failure, dialogue := d0,
        ttsMessageText := ttsMessageText0, llmFinishTask := false,
        chunksRequested := 0 }
  | .ok chunks =>
      -- the for-loop pulls a chunk, then checks the abort flag
      let pulled := match abortIdx with
        | none => chunks.length
        | some k => min (k + 1) chunks.length
      let msgs := collectChunks chunks abortIdx
      let textBuff := String.join msgs
      let d1 := if msgs.length > 0 then d0 ++ [⟨"assistant", textBuff⟩] else d0
      let tts1 := if msgs.length > 0 then textBuff else ttsMessageText0
      { outcome := .success, dialogue := d1, ttsMessageText := tts1,
        llmFinishTask := true, chunksRequested := pulled }

/-! ### TTSProviderBase  (src/core/tts/base.py lines 52-178)

The abstract backend `text_to_speak(text, output_file)` is modelled by
the observable outcome of each call:
* persistent mode (`delete_audio_file = False`, an output file is
  passed): the call may raise, and the target file may or may not exist
  after the call (`TtsAttempt`);
* ephemeral mode (`delete_audio_file = True`, `None` passed): the call
  either raises or returns a byte string (`EphAttempt`); an empty byte
  string is falsy, so `if audio_bytes:` treats it as a failed attempt.

Filesystem primitives (`os.path.exists`, `os.remove`) are total here, so
the outer `except` of the persistent branch (which only fires on
failures of those primitives or of logging) is unreachable in the model.
The persistent `while` loop need not terminate, so it carries explicit
fuel; `.outOfFuel n` reports that after `n` backend invocations the loop
is still running. -/

structure TtsAttempt where
  /-- whether `asyncio.run(self.text_to_speak(text, tmp_file))` raised -/
  raised : Bool
  /-- the target file exists when the call returns (or when it raises;
  a partial file left by a raising call is removed at line 98-99/162-163,
  so its net effect equals `created := false`) -/
  created : Bool
  deriving Repr, DecidableEq

inductive EphAttempt where
  | raises
  | returns (audioBytes : List Nat)
  deriving Repr, DecidableEq

inductive PersistLoop where
  /-- the `while` of lines 90-100 / 154-164 exited after `invocations`
  backend calls, with `maxRepeatLeft` remaining budget and the target
  file existing iff `fileExists` -/
  | finished (invocations maxRepeatLeft : Nat) (fileExists : Bool)
  /-- still looping after `invocations` backend calls -/
  | outOfFuel (invocations : Nat)
  deriving Repr, DecidableEq

/-- Loop `while not os.path.exists(tmp_file) and max_repeat_time > 0:` with
body `try: text_to_speak(...) except: remove partial; max_repeat_time -= 1`.
`max_repeat_time` is decremented only when the backend raises. -/
def persistTtsLoop (attempts : Nat → TtsAttempt) (fileExists : Bool)
    (maxRepeat i fuel : Nat) : PersistLoop :=
  if fileExists = false ∧ 0 < maxRepeat then
    match fuel with
    | 0 => .outOfFuel i
    | fuel + 1 =>
      let a := attempts i
      if a.raised then
        persistTtsLoop attempts false (maxRepeat - 1) (i + 1) fuel
      else
        persistTtsLoop attempts a.created maxRepeat (i + 1) fuel
  else .finished i maxRepeat fileExists

/-- Loop `while max_repeat_time > 0:` of lines 59-77 / 122-140: each backend
call either returns non-empty bytes (success) or costs one unit of the
budget.  Returns the successful bytes (if any) and the number of backend
invocations. -/
def ephTtsLoop (attempts : Nat → EphAttempt) (maxRepeat i : Nat) :
    Option (List Nat) × Nat :=
  match maxRepeat with
  | 0 => (none, i)
  | m + 1 =>
    match attempts i with
    | .raises => ephTtsLoop attempts m (i + 1)
    | .returns b =>
      if b.length > 0 then (some b, i + 1) else ephTtsLoop attempts m (i + 1)

/-- What `to_tts` returns: the list of encoded audio chunks (ephemeral
success), Python `None`, or a file path (persistent branch). -/
inductive TtsValue where
  | audioData (chunks : List (List Nat))
  | nullValue
  | filePath (p : String)
  deriving Repr, DecidableEq

/-- Model of `TTSProviderBase.to_tts(text)` (lines 115-178).  `encode` stands for
the external `audio_bytes_to_data_stream` chunking; `tmp_file` is the
freshly generated unique filename (which does not exist beforehand).
The first component is `none` when the persistent loop is still running
after `fuel` backend calls; the second component counts backend
invocations.  Markdown cleaning (line 117) rewrites the text only and
affects none of the quantities modelled here. -/
def to_tts (delete : Bool) (persistAttempts : Nat → TtsAttempt)
    (ephAttempts : Nat → EphAttempt) (encode : List Nat → List (List Nat))
    (tmp_file : String) (fuel : Nat) : Option TtsValue × Nat :=
  if delete then
    match ephTtsLoop ephAttempts 5 0 with
    | (some b, n) => (some (.audioData (encode b)), n)
    | (none, n) => (some .nullValue, n)
  else
    match persistTtsLoop persistAttempts false 5 0 fuel with
    | .outOfFuel n => (none, n)
    | .finished n _ _ => (some (.filePath tmp_file), n)

/-- Model of `TTSProviderBase.to_tts_stream(text, opus_handler)` (lines 52-113).
Returns the chunks delivered to `opus_handler` (`none` while the
persistent loop is still running) and the backend invocation count.
`fileDecode` stands for `_process_audio_file_stream` reading the
generated file (no deletion happens there: line 247 requires
`delete_audio_file`, which is `False` on this branch). -/
def to_tts_stream (delete : Bool) (persistAttempts : Nat → TtsAttempt)
    (ephAttempts : Nat → EphAttempt) (encode : List Nat → List (List Nat))
    (fileDecode : String → List (List Nat)) (tmp_file : String)
    (fuel : Nat) : Option (List (List Nat)) × Nat :=
  if delete then
    match ephTtsLoop ephAttempts 5 0 with
    | (some b, n) => (some (encode b), n)
    | (none, n) => (some [], n)
  else
    match persistTtsLoop persistAttempts false 5 0 fuel with
    | .outOfFuel n => (none, n)
    | .finished n m _ =>
      if 0 < m then (some (fileDecode tmp_file), n) else (some [], n)

/-! ### ASRProvider  (src/core/asr/fun_local.py)

The filesystem is a list of existing paths.  Each loop iteration runs in
an environment `AsrAttemptEnv` giving the free disk space sampled by
`shutil.disk_usage`, whether the copy/write of the audio raises an
`OSError`, whether reading the input raises an `OSError`, and the
outcome of `self.model.generate` + postprocessing.  `FileNotFoundError`
is a subclass of `OSError` in Python, but its dedicated `except` clause
comes first, so the `except OSError` clause only sees other `OSError`s;
`InferOutcome.osErr` is such an error raised by inference, and
`InferOutcome.otherErr` any non-`OSError` exception. -/

def MAX_RETRIES : Nat := 2
def RETRY_DELAY : Nat := 1

def supported_formats : List String := [".wav", ".mp3", ".flac", ".m4a"]

/-- Python `str.lower()` restricted to ASCII, which is all the extension
strings compared against `supported_formats` ever contain. -/
def pyLowerChar (c : Char) : Char :=
  if 'A' ≤ c ∧ c ≤ 'Z' then Char.ofNat (c.toNat + 32) else c

def pyLower (s : String) : String := String.mk (s.data.map pyLowerChar)

def baseNameChars (p : String) : List Char :=
  ((p.data.reverse).takeWhile (fun c => c ≠ '/')).reverse

def lastDotIdx (cs : List Char) : Option Nat :=
  match cs.reverse.findIdx? (fun c => c = '.') with
  | none => none
  | some r => some (cs.length - 1 - r)

/-- The extension part of `os.path.splitext`: everything from the last
dot of the final path component, provided some earlier character of that
component is not a dot (so `.bashrc` has no extension). -/
def splitextExt (p : String) : String :=
  let base := baseNameChars p
  match lastDotIdx base with
  | none => ""
  | some k =>
    if (base.take k).any (fun c => c ≠ '.') then String.mk (base.drop k)
    else ""

def fsCreate (p : String) (fs : List String) : List String :=
  if p ∈ fs then fs else p :: fs

def fsRemove (p : String) (fs : List String) : List String := fs.erase p

inductive InferOutcome where
  | ok (text : String)
  | osErr
  | otherErr
  deriving Repr, DecidableEq

structure AsrAttemptEnv where
  freeSpace : Nat
  /-- whether `shutil.copy2` (file variant) / `open(...,'wb').write` (stream
  variant) raises an `OSError` -/
  copyFails : Bool
  /-- whether `open(audio_file_path,'rb').read()` raises an `OSError`
  (file variant only) -/
  readFails : Bool
  infer : InferOutcome
  deriving Repr, DecidableEq

structure AsrResult where
  text : String
  filePath : Option String
  fs : List String
  inferCalls : Nat
  attempts : Nat
  sleeps : List Nat
  /-- an exception propagated to the caller (only the stream variant's
  extension pre-check does this) -/
  raised : Bool
  deriving Repr, DecidableEq

/-- The `finally` block of `speech_to_text_from_audio_file`
(lines 216-225): remove `file_path` when retention is disabled, the file
exists, and it is not the caller-supplied input. -/
def fileCleanup (delete : Bool) (inputPath : String) (filePath : Option String)
    (fs : List String) : List String :=
  match filePath with
  | none => fs
  | some p => if delete ∧ p ∈ fs ∧ p ≠ inputPath then fsRemove p fs else fs

/-- The `finally` block of `speech_to_text_from_audio_stream`
(lines 290-299): same but with no input-path guard (the input is a byte
string, not a file). -/
def streamCleanup (delete : Bool) (filePath : Option String)
    (fs : List String) : List String :=
  match filePath with
  | none => fs
  | some p => if delete ∧ p ∈ fs then fsRemove p fs else fs

/-- The retry loop of `speech_to_text_from_audio_file` (lines 146-225).
`budget = MAX_RETRIES - retry_count`; each iteration either returns or
recurses with `budget - 1`, and since an `OSError` with
`retry_count >= MAX_RETRIES` returns instead of recursing, the
`budget = 0` case is unreachable from the wrapper below. -/
def asrFileLoop (delete : Bool) (inputPath : String) (inputExists : Bool)
    (inputSize : Nat) (outPath : String) (extSupported : Bool)
    (envs : Nat → AsrAttemptEnv) (i budget : Nat) (filePath : Option String)
    (fs : List String) (inferCalls attempts : Nat) (sleeps : List Nat) :
    AsrResult :=
  match budget with
  | 0 =>
    -- dead code: the while-condition is false; kept total for the model
    { text := "", filePath := filePath, fs := fs, inferCalls := inferCalls,
      attempts := attempts, sleeps := sleeps, raised := false }
  | b + 1 =>
    let at' := attempts + 1
    let env := envs i
    if inputExists = false then
      -- raise FileNotFoundError → except FileNotFoundError → return "", file_path
      { text := "", filePath := filePath,
        fs := fileCleanup delete inputPath filePath fs,
        inferCalls := inferCalls, attempts := at', sleeps := sleeps,
        raised := false }
    else if extSupported = false then
      -- raise ValueError → except Exception → return "", file_path
      { text := "", filePath := filePath,
        fs := fileCleanup delete inputPath filePath fs,
        inferCalls := inferCalls, attempts := at', sleeps := sleeps,
        raised := false }
    else if delete then
      -- read the input directly (lines 175-178)
      if env.readFails then
        -- OSError before `file_path = audio_file_path` is reached
        if b = 0 then
          { text := "", filePath := filePath,
            fs := fileCleanup delete inputPath filePath fs,
            inferCalls := inferCalls, attempts := at', sleeps := sleeps,
            raised := false }
        else
          asrFileLoop delete inputPath inputExists inputSize outPath
            extSupported envs (i + 1) b filePath
            (fileCleanup delete inputPath filePath fs) inferCalls at'
            (sleeps ++ [RETRY_DELAY])
      else
        let fp := some inputPath
        match env.infer with
        | .ok t =>
          { text := t, filePath := fp,
            fs := fileCleanup delete inputPath fp fs,
            inferCalls := inferCalls + 1, attempts := at', sleeps := sleeps,
            raised := false }
        | .osErr =>
          if b = 0 then
            { text := "", filePath := fp,
              fs := fileCleanup delete inputPath fp fs,
              inferCalls := inferCalls + 1, attempts := at', sleeps := sleeps,
              raised := false }
          else
            asrFileLoop delete inputPath inputExists inputSize outPath
              extSupported envs (i + 1) b fp
              (fileCleanup delete inputPath fp fs) (inferCalls + 1) at'
              (sleeps ++ [RETRY_DELAY])
        | .otherErr =>
          { text := "", filePath := fp,
            fs := fileCleanup delete inputPath fp fs,
            inferCalls := inferCalls + 1, attempts := at', sleeps := sleeps,
            raised := false }
    else
      -- retention enabled: file_path is assigned before the disk check
      -- (lines 159-160), then disk check, copy2, read
      let fp := some outPath
      if env.freeSpace < inputSize * 2 then
        if b = 0 then
          { text := "", filePath := fp,
            fs := fileCleanup delete inputPath fp fs,
            inferCalls := inferCalls, attempts := at', sleeps := sleeps,
            raised := false }
        else
          asrFileLoop delete inputPath inputExists inputSize outPath
            extSupported envs (i + 1) b fp
            (fileCleanup delete inputPath fp fs) inferCalls at'
            (sleeps ++ [RETRY_DELAY])
      else if env.copyFails then
        if b = 0 then
          { text := "", filePath := fp,
            fs := fileCleanup delete inputPath fp fs,
            inferCalls := inferCalls, attempts := at', sleeps := sleeps,
            raised := false }
        else
          asrFileLoop delete inputPath inputExists inputSize outPath
            extSupported envs (i + 1) b fp
            (fileCleanup delete inputPath fp fs) inferCalls at'
            (sleeps ++ [RETRY_DELAY])
      else
        let fs1 := fsCreate outPath fs
        if env.readFails then
          if b = 0 then
            { text := "", filePath := fp,
              fs := fileCleanup delete inputPath fp fs1,
              inferCalls := inferCalls, attempts := at', sleeps := sleeps,
              raised := false }
          else
            asrFileLoop delete inputPath inputExists inputSize outPath
              extSupported envs (i + 1) b fp
              (fileCleanup delete inputPath fp fs1) inferCalls at'
              (sleeps ++ [RETRY_DELAY])
        else
          match env.infer with
          | .ok t =>
            { text := t, filePath := fp,
              fs := fileCleanup delete inputPath fp fs1,
              inferCalls := inferCalls + 1, attempts := at', sleeps := sleeps,
              raised := false }
          | .osErr =>
            if b = 0 then
              { text := "", filePath := fp,
                fs := fileCleanup delete inputPath fp fs1,
                inferCalls := inferCalls + 1, attempts := at', sleeps := sleeps,
                raised := false }
            else
              asrFileLoop delete inputPath inputExists inputSize outPath
                extSupported envs (i + 1) b fp
                (fileCleanup delete inputPath fp fs1) (inferCalls + 1) at'
                (sleeps ++ [RETRY_DELAY])
          | .otherErr =>
            { text := "", filePath := fp,
              fs := fileCleanup delete inputPath fp fs1,
              inferCalls := inferCalls + 1, attempts := at', sleeps := sleeps,
              raised := false }

/-- Model of `ASRProvider.speech_to_text_from_audio_file(audio_file_path,
session_id)` (lines 136-225). -/
def speech_to_text_from_audio_file (delete : Bool) (inputPath : String)
    (inputExists : Bool) (inputSize : Nat) (sessionId outputDir : String)
    (envs : Nat → AsrAttemptEnv) (fs : List String) : AsrResult :=
  let ext := splitextExt inputPath
  let extSupported := supported_formats.contains (pyLower ext)
  let outPath := outputDir ++ "/" ++ sessionId ++ ext
  asrFileLoop delete inputPath inputExists inputSize outPath extSupported envs
    0 MAX_RETRIES none fs 0 0 []

/-- The retry loop of `speech_to_text_from_audio_stream` (lines 242-299).
`dataLen` is `len(audio_data)`; `copyFails` stands for the
`open(file_path,'wb')`/`write` step raising, `readFails` is unused (the
data is already in memory). -/
def asrStreamLoop (delete : Bool) (dataLen : Nat) (outPath : String)
    (envs : Nat → AsrAttemptEnv) (i budget : Nat) (filePath : Option String)
    (fs : List String) (inferCalls attempts : Nat) (sleeps : List Nat) :
    AsrResult :=
  match budget with
  | 0 =>
    { text := "", filePath := filePath, fs := fs, inferCalls := inferCalls,
      attempts := attempts, sleeps := sleeps, raised := false }
  | b + 1 =>
    let at' := attempts + 1
    let env := envs i
    if delete = false ∧ env.freeSpace < dataLen * 2 then
      -- file_path already assigned (line 247); OSError at the disk check
      if b = 0 then
        { text := "", filePath := some outPath,
          fs := streamCleanup delete (some outPath) fs,
          inferCalls := inferCalls, attempts := at', sleeps := sleeps,
          raised := false }
      else
        asrStreamLoop delete dataLen outPath envs (i + 1) b (some outPath)
          (streamCleanup delete (some outPath) fs) inferCalls at'
          (sleeps ++ [RETRY_DELAY])
    else if delete = false ∧ env.copyFails then
      if b = 0 then
        { text := "", filePath := some outPath,
          fs := streamCleanup delete (some outPath) fs,
          inferCalls := inferCalls, attempts := at', sleeps := sleeps,
          raised := false }
      else
        asrStreamLoop delete dataLen outPath envs (i + 1) b (some outPath)
          (streamCleanup delete (some outPath) fs) inferCalls at'
          (sleeps ++ [RETRY_DELAY])
    else
      let fp := if delete then filePath else some outPath
      let fs1 := if delete then fs else fsCreate outPath fs
      match env.infer with
      | .ok t =>
        { text := t, filePath := fp, fs := streamCleanup delete fp fs1,
          inferCalls := inferCalls + 1, attempts := at', sleeps := sleeps,
          raised := false }
      | .osErr =>
        if b = 0 then
          { text := "", filePath := fp, fs := streamCleanup delete fp fs1,
            inferCalls := inferCalls + 1, attempts := at', sleeps := sleeps,
            raised := false }
        else
          asrStreamLoop delete dataLen outPath envs (i + 1) b fp
            (streamCleanup delete fp fs1) (inferCalls + 1) at'
            (sleeps ++ [RETRY_DELAY])
      | .otherErr =>
        { text := "", filePath := fp, fs := streamCleanup delete fp fs1,
          inferCalls := inferCalls + 1, attempts := at', sleeps := sleeps,
          raised := false }

/-- Model of `ASRProvider.speech_to_text_from_audio_stream(audio_data, session_id,
file_extension)` (lines 228-299).  The extension check happens before
the retry loop and raises a `ValueError` to the caller (`raised = true`)
on an unsupported extension. -/
def speech_to_text_from_audio_stream (delete : Bool) (dataLen : Nat)
    (sessionId fileExtension outputDir : String)
    (envs : Nat → AsrAttemptEnv) (fs : List String) : AsrResult :=
  if supported_formats.contains (pyLower fileExtension) = false then
    { text := "", filePath := none, fs := fs, inferCalls := 0, attempts := 0,
      sleeps := [], raised := true }
  else
    let outPath := outputDir ++ "/" ++ sessionId ++ fileExtension
    asrStreamLoop delete dataLen outPath envs 0 MAX_RETRIES none fs 0 0 []

/-! ### process_voice_query  (src/app.py lines 72-142)

The coordinator.  `llmCalls` counts invocations of `llm.response`
(made inside `conn.chat`), `ttsCalls` counts invocations of
`tts.text_to_speak` (made directly at lines 111/115).  An exception that
reaches the outer handler at line 140 is logged and re-raised, so the
call raises to the HTTP layer (`raisedMsg`). -/

def basename (p : String) : String := String.mk (baseNameChars p)

structure PvqResponse where
  sessionId : String
  recognizedText : String
  responseText : String
  audioUrl : Option String
  status : String
  deriving Repr, DecidableEq

structure PvqResult where
  raisedMsg : Option String
  response : Option PvqResponse
  llmCalls : Nat
  ttsCalls : Nat
  /-- a `_schedule_delete` background task was created (line 125) -/
  janitorScheduled : Bool
  deriving Repr, DecidableEq

/-- Model of `process_voice_query(audio_file_path, session_id)`.  `asrText` is
the text component returned by `asr.speech_to_text_from_audio_file`;
`genSessionId` the uuid generated when no session id is supplied;
`audioFile` the filename from `tts.generate_filename()`; `ttsRaises`
whether `tts.text_to_speak` raises; `deleteAudio` the
`config.get("delete_audio", True)` flag. -/
def process_voice_query (modulesPresent : Bool) (sessionId : Option String)
    (genSessionId : String) (asrText : String) (llm : LLMResult)
    (abortIdx : Option Nat) (audioFile : String) (ttsRaises : Bool)
    (deleteAudio : Bool) : PvqResult :=
  if modulesPresent = false then
    { raisedMsg := some "系统模块未正确初始化", response := none,
      llmCalls := 0, ttsCalls := 0, janitorScheduled := false }
  else
    let sid := sessionId.getD genSessionId
    -- 1. recognition (line 88); `if not text:` fires exactly on ""
    if asrText = "" then
      { raisedMsg := some "语音识别失败", response := none,
        llmCalls := 0, ttsCalls := 0, janitorScheduled := false }
    else
      -- 2. dialogue on a freshly constructed ConnectionHandler
      -- (dialogue empty, tts_MessageText ""); llm.response called once
      let c := chat [] "" asrText 0 llm abortIdx
      match c.outcome with
      | .failure =>
        { raisedMsg := some "对话处理失败", response := none,
          llmCalls := 1, ttsCalls := 0, janitorScheduled := false }
      | .success =>
        -- 3. synthesis: text_to_speak called once; on failure the
        -- audio_url degrades to None but the request still succeeds
        let audioUrl : Option String :=
          if ttsRaises then none else some ("/audio/" ++ basename audioFile)
        { raisedMsg := none,
          response := some
            { sessionId := sid, recognizedText := asrText,
              responseText := c.ttsMessageText, audioUrl := audioUrl,
              status := "success" },
          llmCalls := 1, ttsCalls := 1,
          janitorScheduled := ttsRaises = false ∧ deleteAudio }

/-! ### ConnectionHandler.close  (src/core/connection.py lines 100-125)

`__init__` (lines 26-29) has the creation of `self.stop_event` and
`self.executor` commented out, so a freshly constructed handler has
neither attribute.  A handler attribute is modelled as `none` when it
does not exist (access raises `AttributeError`) and `some b` when it
exists with truthiness `b`. -/

structure Handler where
  stopEvent : Option Bool
  executor : Option Bool
  /-- truthiness of `self.tts` -/
  ttsPresent : Bool
  /-- whether `await self.tts.close()` raises -/
  ttsCloseRaises : Bool
  deriving Repr, DecidableEq

/-- The attribute state `__init__` leaves behind: `stop_event` and
`executor` were never created (lines 27-29 are commented out). -/
def connectionHandlerInit (ttsPresent ttsCloseRaises : Bool) : Handler :=
  { stopEvent := none, executor := none, ttsPresent := ttsPresent,
    ttsCloseRaises := ttsCloseRaises }

structure CloseResult where
  /-- an exception escaped `close()` (the `AttributeError` raised by
  `self.stop_event` in the `finally` block is not caught by anything) -/
  raisedAttributeError : Bool
  ttsCloseCalled : Bool
  executorShutdownCalled : Bool
  handlerAfter : Handler
  deriving Repr, DecidableEq

/-- Model of `ConnectionHandler.close(ws=None)`.  The `try` body stops at the
first failing step (caught by the `except` at line 121); the `finally`
block then evaluates `self.stop_event` again, and an `AttributeError`
raised there propagates to the caller. -/
def close (h : Handler) : CloseResult :=
  let tryRes : Bool × Bool × Handler :=
    match h.stopEvent with
    | none => (false, false, h)      -- AttributeError at line 104, caught
    | some _ =>
      if h.ttsPresent ∧ h.ttsCloseRaises then
        (true, false, h)             -- tts.close raised, caught at line 121
      else
        let ttsClosed := h.ttsPresent
        match h.executor with
        | none => (ttsClosed, false, h)   -- AttributeError at line 111, caught
        | some ex =>
          if ex then (ttsClosed, true, { h with executor := some false })
          else (ttsClosed, false, h)
  match tryRes with
  | (ttsClosed, shutdownCalled, h1) =>
    match h1.stopEvent with
    | none =>
      { raisedAttributeError := true, ttsCloseCalled := ttsClosed,
        executorShutdownCalled := shutdownCalled, handlerAfter := h1 }
    | some _ =>
      { raisedAttributeError := false, ttsCloseCalled := ttsClosed,
        executorShutdownCalled := shutdownCalled, handlerAfter := h1 }

/-! ## Claims -/

/-- C1 counterexample: with the abort flag set at the check after the
first chunk, `chat` does NOT discard the accumulated text — the chunk
`"he"` is appended as an assistant message — and the call returns `True`
(success), not failure, refuting the claim at this input. -/
theorem chat_abort_discard_counterexample :
    (chat [] "" "hi" 0 (.ok [some "he", some "llo"]) (some 1)).outcome
        = .success ∧
    (chat [] "" "hi" 0 (.ok [some "he", some "llo"]) (some 1)).dialogue
        = [⟨"user", "hi"⟩, ⟨"assistant", "he"⟩] := by
  constructor
  · rfl
  · decide

/-- C1 (amended): when the abort flag is observed at check `k`, `chat`
stops pulling chunks (at most `k + 1` are requested, because the Python
`for` pulls one chunk before each check) and does not raise; but the
chunks accumulated before the abort are kept — the dialogue and
`tts_MessageText` end up exactly as if the stream had ended after those
chunks — and the call returns `True` (success), not failure. -/
theorem chat_abort_keeps_text_and_succeeds (d : Dialogue) (t q : String)
    (chunks : List (Option String)) (k : Nat) :
    (chat d t q 0 (.ok chunks) (some k)).outcome = .success ∧
    (chat d t q 0 (.ok chunks) (some k)).chunksRequested
        = min (k + 1) chunks.length ∧
    (chat d t q 0 (.ok chunks) (some k)).dialogue
        = (chat d t q 0 (.ok (chunks.take k)) none).dialogue ∧
    (chat d t q 0 (.ok chunks) (some k)).ttsMessageText
        = (chat d t q 0 (.ok (chunks.take k)) none).ttsMessageText :=
  ⟨rfl, rfl, rfl, rfl⟩

/-- C5 counterexample: a stream with no non-empty chunk leaves the
dialogue without an assistant message, but `chat` returns `True`
(success), not the failure the claim requires. -/
theorem chat_empty_stream_counterexample :
    (chat [] "" "hi" 0 (.ok [some "", none]) none).outcome = .success ∧
    ¬ (chat [] "" "hi" 0 (.ok [some "", none]) none).outcome = .failure ∧
    (chat [] "" "hi" 0 (.ok [some "", none]) none).dialogue
        = [⟨"user", "hi"⟩] := by
  refine ⟨rfl, by decide, by decide⟩

/-- C5 (amended): when the model invocation raises, `chat` reports
failure (`None`) and appends no assistant message; when the stream
yields no non-empty chunks, `chat` likewise appends no assistant message
and leaves `tts_MessageText` unchanged, but returns `True` (success)
rather than reporting failure. -/
theorem chat_failure_modes (d : Dialogue) (t q : String)
    (chunks : List (Option String)) (abortIdx : Option Nat)
    (h : collectChunks chunks abortIdx = []) :
    (chat d t q 0 .err abortIdx).outcome = .failure ∧
    (chat d t q 0 .err abortIdx).dialogue = d ++ [⟨"user", q⟩] ∧
    (chat d t q 0 (.ok chunks) abortIdx).dialogue = d ++ [⟨"user", q⟩] ∧
    (chat d t q 0 (.ok chunks) abortIdx).ttsMessageText = t ∧
    (chat d t q 0 (.ok chunks) abortIdx).outcome = .success := by
  refine ⟨rfl, by simp [chat], ?_, ?_, rfl⟩ <;> simp [chat, h]

/-- Witness for `chat_failure_modes` at the concrete all-empty stream
`[some "", none]`. -/
theorem chat_failure_modes_witness :
    (chat [] "" "hi" 0 .err none).outcome = .failure ∧
    (chat [] "" "hi" 0 .err none).dialogue = [⟨"user", "hi"⟩] ∧
    (chat [] "" "hi" 0 (.ok [some "", none]) none).dialogue
        = [⟨"user", "hi"⟩] ∧
    (chat [] "" "hi" 0 (.ok [some "", none]) none).ttsMessageText = "" ∧
    (chat [] "" "hi" 0 (.ok [some "", none]) none).outcome = .success := by
  have := chat_failure_modes [] "" "hi" [some "", none] none (by decide)
  simpa using this

/-- With a backend that returns normally but never creates the target
file, the persistent retry loop never decrements `max_repeat_time`
(the decrement sits in the `except` branch only), so after any number
`fuel` of backend invocations it is still running. -/
theorem persistTtsLoop_silent (i fuel : Nat) :
    persistTtsLoop (fun _ => ⟨false, false⟩) false 5 i fuel
      = .outOfFuel (i + fuel) := by
  induction fuel generalizing i with
  | zero => unfold persistTtsLoop; simp
  | succ n ih =>
      unfold persistTtsLoop
      rw [show (i + (n + 1)) = (i + 1) + n by omega]
      exact ih (i + 1)

/-- With a backend that raises on every attempt, the persistent retry
loop terminates after exactly `m` invocations (one per unit of budget),
leaving no target file. -/
theorem persistTtsLoop_raising (attempts : Nat → TtsAttempt)
    (h : ∀ j, (attempts j).raised = true) :
    ∀ m i fuel, m ≤ fuel →
      persistTtsLoop attempts false m i fuel = .finished (i + m) 0 false := by
  intro m
  induction m with
  | zero => intro i fuel _; unfold persistTtsLoop; simp
  | succ n ih =>
      intro i fuel hf
      obtain ⟨f, rfl⟩ : ∃ f, fuel = f + 1 := ⟨fuel - 1, by omega⟩
      unfold persistTtsLoop
      simp only [h i, if_true, Nat.add_sub_cancel]
      rw [if_pos (by simp)]
      rw [ih (i + 1) f (by omega)]
      congr 1
      omega

/-- C2 (code bug): the retry cap holds only for raising backends.  A
persistent-mode backend that returns without creating the target file is
re-invoked without bound — after `fuel` invocations the loop is still
running, so in particular more than 5 invocations occur — while a
backend that raises every time is invoked exactly 5 times, as is an
ephemeral-mode backend that always raises or always yields empty
bytes. -/
theorem tts_retry_cap_violated :
    (∀ fuel, persistTtsLoop (fun _ => ⟨false, false⟩) false 5 0 fuel
        = .outOfFuel fuel) ∧
    (to_tts false (fun _ => ⟨false, false⟩) (fun _ => .raises) (fun _ => [])
        "tmp/tts-f.wav" 6).2 = 6 ∧
    (to_tts false (fun _ => ⟨true, false⟩) (fun _ => .raises) (fun _ => [])
        "tmp/tts-f.wav" 6).2 = 5 ∧
    (to_tts true (fun _ => ⟨false, false⟩) (fun _ => .raises) (fun _ => [])
        "tmp/tts-f.wav" 0).2 = 5 ∧
    (to_tts true (fun _ => ⟨false, false⟩) (fun _ => .returns [])
        (fun _ => []) "tmp/tts-f.wav" 0).2 = 5 := by
  refine ⟨fun fuel => by simpa using persistTtsLoop_silent 0 fuel,
    ?_, ?_, ?_, ?_⟩ <;> rfl

/-- C3 counterexample: with a backend raising on every attempt,
persistent-mode `to_tts` exhausts its 5 attempts and then returns the
generated filename — a path whose file does not exist — rather than
`None`. -/
theorem to_tts_exhaustion_counterexample :
    (to_tts false (fun _ => ⟨true, false⟩) (fun _ => .raises) (fun _ => [])
        "tmp/tts-2025@ab.wav" 5).1
      = some (.filePath "tmp/tts-2025@ab.wav") ∧
    ¬ (to_tts false (fun _ => ⟨true, false⟩) (fun _ => .raises) (fun _ => [])
        "tmp/tts-2025@ab.wav" 5).1 = some .nullValue := by
  constructor
  · rfl
  · decide

/-- C3 (amended): in persistent mode, when every one of the 5 attempts
raises (the only failure mode that exhausts the budget), `to_tts`
returns the generated target path — whose file does not exist — rather
than `None`; `None` is produced only by the outer exception handler,
which the backend cannot trigger. -/
theorem to_tts_exhaustion_returns_path (attempts : Nat → TtsAttempt)
    (tmp : String) (fuel : Nat)
    (h : ∀ j, (attempts j).raised = true) (hf : 5 ≤ fuel) :
    to_tts false attempts (fun _ => .raises) (fun _ => []) tmp fuel
      = (some (.filePath tmp), 5) := by
  unfold to_tts
  simp [persistTtsLoop_raising attempts h 5 0 fuel hf]

/-- Witness for `to_tts_exhaustion_returns_path` at an always-raising
backend. -/
theorem to_tts_exhaustion_returns_path_witness :
    to_tts false (fun _ => ⟨true, false⟩) (fun _ => .raises) (fun _ => [])
        "tmp/tts-w.wav" 5 = (some (.filePath "tmp/tts-w.wav"), 5) :=
  to_tts_exhaustion_returns_path (fun _ => ⟨true, false⟩) "tmp/tts-w.wav" 5
    (fun _ => rfl) (by norm_num)

/-- C4: when recognition returns empty text, `process_voice_query`
fails the whole request with the descriptive error "语音识别失败" and
invokes neither the language model nor the synthesizer backend (zero
calls to each). -/
theorem pvq_empty_recognition_skips_stages (sid? : Option String)
    (genSid audioFile : String) (llm : LLMResult) (abortIdx : Option Nat)
    (ttsRaises deleteAudio : Bool) :
    process_voice_query true sid? genSid "" llm abortIdx audioFile ttsRaises
        deleteAudio
      = { raisedMsg := some "语音识别失败", response := none, llmCalls := 0,
          ttsCalls := 0, janitorScheduled := false } := by
  rfl

/-- C8 (code bug): `__init__` never creates `stop_event` or `executor`
(their initialization, lines 27-29, is commented out), so every call to
`close` — first or repeated, whatever the tts collaborator does — raises
an `AttributeError` from the `finally` block, and no cleanup step runs:
`tts.close` is never awaited and no worker-pool shutdown is attempted;
a second `close` behaves identically. -/
theorem close_always_raises (tp tcr : Bool) :
    (close (connectionHandlerInit tp tcr)).raisedAttributeError = true ∧
    (close (connectionHandlerInit tp tcr)).ttsCloseCalled = false ∧
    (close (connectionHandlerInit tp tcr)).executorShutdownCalled = false ∧
    close ((close (connectionHandlerInit tp tcr)).handlerAfter)
      = close (connectionHandlerInit tp tcr) :=
  ⟨rfl, rfl, rfl, rfl⟩

/-- C6 counterexample: for the unsupported extension ".txt" the file
variant returns empty text after a single attempt with zero calls to the
inference engine — not the exactly-one call the claim asserts — and the
stream variant does not return an empty-text result at all: it raises a
`ValueError` to the caller. -/
theorem asr_unsupported_ext_counterexample :
    (speech_to_text_from_audio_file true "audio.txt" true 10 "sid" "tmp"
        (fun _ => ⟨100, false, false, .ok "t"⟩) []).inferCalls = 0 ∧
    ¬ (speech_to_text_from_audio_file true "audio.txt" true 10 "sid" "tmp"
        (fun _ => ⟨100, false, false, .ok "t"⟩) []).inferCalls = 1 ∧
    (speech_to_text_from_audio_stream true 10 "sid" ".txt" "tmp"
        (fun _ => ⟨100, false, false, .ok "t"⟩) []).raised = true := by
  refine ⟨rfl, by decide, rfl⟩

/-- C6 (amended): on an unsupported extension (case-insensitively not
one of .wav/.mp3/.flac/.m4a) the file variant returns immediately — one
loop iteration, no retry, no sleep — with empty text and zero
invocations of the inference engine, while the stream variant raises a
`ValueError` before entering the retry loop, likewise with zero
inference invocations. -/
theorem asr_unsupported_ext_behavior (delete : Bool) (inputPath : String)
    (inputSize : Nat) (sessionId outputDir fileExt : String)
    (envs envs' : Nat → AsrAttemptEnv) (fs fs' : List String)
    (hfile : pyLower (splitextExt inputPath) ∉ supported_formats)
    (hstream : pyLower fileExt ∉ supported_formats) :
    speech_to_text_from_audio_file delete inputPath true inputSize sessionId
        outputDir envs fs
      = { text := "", filePath := none, fs := fs, inferCalls := 0,
          attempts := 1, sleeps := [], raised := false } ∧
    speech_to_text_from_audio_stream delete inputSize sessionId fileExt
        outputDir envs' fs'
      = { text := "", filePath := none, fs := fs', inferCalls := 0,
          attempts := 0, sleeps := [], raised := true } := by
  constructor
  · unfold speech_to_text_from_audio_file
    unfold asrFileLoop
    simp [MAX_RETRIES, hfile, fileCleanup]
  · unfold speech_to_text_from_audio_stream
    simp [hstream]

/-- Witness for `asr_unsupported_ext_behavior` at the concrete
extension ".txt". -/
theorem asr_unsupported_ext_behavior_witness :
    speech_to_text_from_audio_file true "audio.txt" true 10 "sid" "tmp"
        (fun _ => ⟨100, false, false, .ok "t"⟩) []
      = { text := "", filePath := none, fs := [], inferCalls := 0,
          attempts := 1, sleeps := [], raised := false } ∧
    speech_to_text_from_audio_stream true 10 "sid" ".txt" "tmp"
        (fun _ => ⟨100, false, false, .ok "t"⟩) []
      = { text := "", filePath := none, fs := [], inferCalls := 0,
          attempts := 0, sleeps := [], raised := true } :=
  asr_unsupported_ext_behavior true "audio.txt" 10 "sid" "tmp" ".txt"
    (fun _ => ⟨100, false, false, .ok "t"⟩)
    (fun _ => ⟨100, false, false, .ok "t"⟩) [] [] (by decide) (by decide)

/-- With retention disabled, the file-variant cleanup never removes
anything: `file_path` is only ever `None` or the caller's own input
path, and the `file_path != audio_file_path` guard blocks the latter. -/
theorem fileCleanup_none_or_input (inputPath : String) (fp : Option String)
    (fs : List String) (h : fp = none ∨ fp = some inputPath) :
    fileCleanup true inputPath fp fs = fs := by
  rcases h with h | h <;> subst h <;> simp [fileCleanup]

/-- The file-variant loop with `delete_audio_file = True` leaves the
filesystem untouched on every exit path, given the invariant that
`file_path` is `None` or the input path (true initially and preserved by
every iteration, since this mode only ever assigns the input path). -/
theorem asrFileLoop_retention_disabled_frame (inputPath : String)
    (inputExists : Bool) (inputSize : Nat) (outPath : String)
    (extSupported : Bool) (envs : Nat → AsrAttemptEnv) :
    ∀ budget i fp fs ic a sl, (fp = none ∨ fp = some inputPath) →
      (asrFileLoop true inputPath inputExists inputSize outPath extSupported
          envs i budget fp fs ic a sl).fs = fs := by
  cases inputExists <;> cases extSupported <;>
    (intro budget
     induction budget with
     | zero => intro i fp fs ic a sl _; rfl
     | succ b ih =>
         intro i fp fs ic a sl h
         have hc : fileCleanup true inputPath fp fs = fs :=
           fileCleanup_none_or_input inputPath fp fs h
         have hc2 : fileCleanup true inputPath (some inputPath) fs = fs :=
           fileCleanup_none_or_input inputPath (some inputPath) fs
             (Or.inr rfl)
         unfold asrFileLoop
         by_cases h3 : (envs i).readFails = true <;>
           by_cases hb : b = 0 <;>
           rcases hinf : (envs i).infer with t | _ | _ <;>
             simp [h3, hb, hinf, hc, hc2,
               ih _ _ _ ic (a + 1) (sl ++ [RETRY_DELAY]) h,
               ih _ _ _ ic (a + 1) (sl ++ [RETRY_DELAY]) (Or.inr rfl),
               ih _ _ _ (ic + 1) (a + 1) (sl ++ [RETRY_DELAY]) (Or.inr rfl)])

/-- The stream-variant loop with `delete_audio_file = True` writes no
file and its cleanup removes none (`file_path` stays `None`), so the
filesystem is untouched on every exit path. -/
theorem asrStreamLoop_retention_disabled_frame (dataLen : Nat)
    (outPath : String) (envs : Nat → AsrAttemptEnv) :
    ∀ budget i fs ic a sl,
      (asrStreamLoop true dataLen outPath envs i budget none fs ic a
          sl).fs = fs := by
  intro budget
  induction budget with
  | zero => intro i fs ic a sl; rfl
  | succ b ih =>
      intro i fs ic a sl
      unfold asrStreamLoop
      by_cases hb : b = 0 <;>
        rcases hinf : (envs i).infer with t | _ | _ <;>
          simp [hb, hinf, streamCleanup, ih]

/-- C9: with retention disabled (`delete_audio_file = True`) the file
variant creates no working file and its guaranteed cleanup never touches
the filesystem: on every exit path (success, validation failure, retry
exhaustion) the filesystem is exactly as before the call, so in
particular the caller-supplied input file is never deleted; the stream
variant likewise leaves the filesystem untouched, including when its
extension pre-check raises. -/
theorem asr_retention_disabled_no_residue (inputPath : String)
    (inputExists : Bool) (inputSize dataLen : Nat)
    (sessionId outputDir fileExt : String) (envs envs' : Nat → AsrAttemptEnv)
    (fs fs' : List String) (hin : inputPath ∈ fs) :
    (speech_to_text_from_audio_file true inputPath inputExists inputSize
        sessionId outputDir envs fs).fs = fs ∧
    inputPath ∈ (speech_to_text_from_audio_file true inputPath inputExists
        inputSize sessionId outputDir envs fs).fs ∧
    (speech_to_text_from_audio_stream true dataLen sessionId fileExt
        outputDir envs' fs').fs = fs' := by
  have hfile :
      (speech_to_text_from_audio_file true inputPath inputExists inputSize
          sessionId outputDir envs fs).fs = fs := by
    unfold speech_to_text_from_audio_file
    exact asrFileLoop_retention_disabled_frame _ _ _ _ _ _ _ _ _ _ _ _ _
      (Or.inl rfl)
  refine ⟨hfile, ?_, ?_⟩
  · rw [hfile]; exact hin
  · unfold speech_to_text_from_audio_stream
    by_cases hs : pyLower fileExt ∈ supported_formats <;>
      simp [hs, asrStreamLoop_retention_disabled_frame]

/-- Witness for `asr_retention_disabled_no_residue` at a concrete
filesystem containing the input file. -/
theorem asr_retention_disabled_no_residue_witness :
    (speech_to_text_from_audio_file true "a.wav" true 10 "sid" "tmp"
        (fun _ => ⟨100, false, false, .ok "t"⟩) ["a.wav"]).fs = ["a.wav"] ∧
    "a.wav" ∈ (speech_to_text_from_audio_file true "a.wav" true 10 "sid"
        "tmp" (fun _ => ⟨100, false, false, .ok "t"⟩) ["a.wav"]).fs ∧
    (speech_to_text_from_audio_stream true 10 "sid" ".wav" "tmp"
        (fun _ => ⟨100, false, false, .ok "t"⟩) []).fs = [] :=
  asr_retention_disabled_no_residue "a.wav" true 10 10 "sid" "tmp" ".wav"
    (fun _ => ⟨100, false, false, .ok "t"⟩)
    (fun _ => ⟨100, false, false, .ok "t"⟩) ["a.wav"] [] (by decide)

/-- Conditions under which one iteration of the file-variant retry loop
(on an existing input with a supported extension) raises an `OSError`
other than `FileNotFoundError` — the retryable, resource-class faults:
with retention enabled the disk-headroom check, the copy, or the read
can raise one, and inference can raise one in either mode. -/
def attemptOsError : Bool → Nat → AsrAttemptEnv → Prop
  | true, _, env => env.readFails = true ∨ env.infer = .osErr
  | false, inputSize, env =>
      env.freeSpace < inputSize * 2 ∨ env.copyFails = true ∨
      env.readFails = true ∨ env.infer = .osErr

/-- An iteration hitting an `OSError` with budget remaining recurses
with one more recorded attempt and one more sleep of `RETRY_DELAY`. -/
theorem asrFileLoop_oserror_retry (delete : Bool) (inputPath : String)
    (inputSize : Nat) (outPath : String) (envs : Nat → AsrAttemptEnv)
    (i b : Nat) (fp : Option String) (fs : List String) (ic a : Nat)
    (sl : List Nat) (h : attemptOsError delete inputSize (envs i))
    (hb : ¬ b = 0) :
    ∃ fp' fs' ic',
      asrFileLoop delete inputPath true inputSize outPath true envs i
          (b + 1) fp fs ic a sl
        = asrFileLoop delete inputPath true inputSize outPath true envs
            (i + 1) b fp' fs' ic' (a + 1) (sl ++ [RETRY_DELAY]) := by
  cases delete with
  | true =>
      by_cases hr : (envs i).readFails = true
      · refine ⟨fp, fileCleanup true inputPath fp fs, ic, ?_⟩
        rw [asrFileLoop.eq_def]
        simp [hr, hb]
      · have hi : (envs i).infer = .osErr := by
          rcases h with h' | h'
          · exact absurd h' hr
          · exact h'
        refine ⟨some inputPath,
          fileCleanup true inputPath (some inputPath) fs, ic + 1, ?_⟩
        rw [asrFileLoop.eq_def]
        simp [hr, hi, hb]
  | false =>
      by_cases h1 : (envs i).freeSpace < inputSize * 2
      · refine ⟨some outPath,
          fileCleanup false inputPath (some outPath) fs, ic, ?_⟩
        rw [asrFileLoop.eq_def]
        simp [h1, hb]
      · by_cases h2 : (envs i).copyFails = true
        · refine ⟨some outPath,
            fileCleanup false inputPath (some outPath) fs, ic, ?_⟩
          rw [asrFileLoop.eq_def]
          simp [h1, h2, hb]
        · by_cases h3 : (envs i).readFails = true
          · refine ⟨some outPath,
              fileCleanup false inputPath (some outPath)
                (fsCreate outPath fs), ic, ?_⟩
            rw [asrFileLoop.eq_def]
            simp [h1, h2, h3, hb]
          · have hi : (envs i).infer = .osErr := by
              rcases h with h' | h' | h' | h'
              · exact absurd h' h1
              · exact absurd h' h2
              · exact absurd h' h3
              · exact h'
            refine ⟨some outPath,
              fileCleanup false inputPath (some outPath)
                (fsCreate outPath fs), ic + 1, ?_⟩
            rw [asrFileLoop.eq_def]
            simp [h1, h2, h3, hi, hb]

/-- An iteration hitting an `OSError` with `retry_count` about to reach
`MAX_RETRIES` returns the empty-text result without sleeping again. -/
theorem asrFileLoop_oserror_last (delete : Bool) (inputPath : String)
    (inputSize : Nat) (outPath : String) (envs : Nat → AsrAttemptEnv)
    (i : Nat) (fp : Option String) (fs : List String) (ic a : Nat)
    (sl : List Nat) (h : attemptOsError delete inputSize (envs i)) :
    ∃ fp' fs' ic',
      asrFileLoop delete inputPath true inputSize outPath true envs i 1
          fp fs ic a sl
        = { text := "", filePath := fp', fs := fs', inferCalls := ic',
            attempts := a + 1, sleeps := sl, raised := false } := by
  cases delete with
  | true =>
      by_cases hr : (envs i).readFails = true
      · refine ⟨fp, fileCleanup true inputPath fp fs, ic, ?_⟩
        rw [asrFileLoop.eq_def]
        simp [hr]
      · have hi : (envs i).infer = .osErr := by
          rcases h with h' | h'
          · exact absurd h' hr
          · exact h'
        refine ⟨some inputPath,
          fileCleanup true inputPath (some inputPath) fs, ic + 1, ?_⟩
        rw [asrFileLoop.eq_def]
        simp [hr, hi]
  | false =>
      by_cases h1 : (envs i).freeSpace < inputSize * 2
      · refine ⟨some outPath,
          fileCleanup false inputPath (some outPath) fs, ic, ?_⟩
        rw [asrFileLoop.eq_def]
        simp [h1]
      · by_cases h2 : (envs i).copyFails = true
        · refine ⟨some outPath,
            fileCleanup false inputPath (some outPath) fs, ic, ?_⟩
          rw [asrFileLoop.eq_def]
          simp [h1, h2]
        · by_cases h3 : (envs i).readFails = true
          · refine ⟨some outPath,
              fileCleanup false inputPath (some outPath)
                (fsCreate outPath fs), ic, ?_⟩
            rw [asrFileLoop.eq_def]
            simp [h1, h2, h3]
          · have hi : (envs i).infer = .osErr := by
              rcases h with h' | h' | h' | h'
              · exact absurd h' h1
              · exact absurd h' h2
              · exact absurd h' h3
              · exact h'
            refine ⟨some outPath,
              fileCleanup false inputPath (some outPath)
                (fsCreate outPath fs), ic + 1, ?_⟩
            rw [asrFileLoop.eq_def]
            simp [h1, h2, h3, hi]

/-- C7: when every attempt hits an `OSError`-class resource fault
(headroom shortfall or I/O fault), the file variant makes exactly
`MAX_RETRIES = 2` attempts, sleeps exactly once for `RETRY_DELAY`
seconds between them, and returns an empty-text result to the caller
without raising. -/
theorem asr_file_all_oserror_two_attempts (delete : Bool)
    (inputPath : String) (inputSize : Nat) (sessionId outputDir : String)
    (envs : Nat → AsrAttemptEnv) (fs : List String)
    (hsupp : pyLower (splitextExt inputPath) ∈ supported_formats)
    (herr : ∀ i, attemptOsError delete inputSize (envs i)) :
    (speech_to_text_from_audio_file delete inputPath true inputSize sessionId
        outputDir envs fs).attempts = 2 ∧
    (speech_to_text_from_audio_file delete inputPath true inputSize sessionId
        outputDir envs fs).sleeps = [RETRY_DELAY] ∧
    (speech_to_text_from_audio_file delete inputPath true inputSize sessionId
        outputDir envs fs).text = "" ∧
    (speech_to_text_from_audio_file delete inputPath true inputSize sessionId
        outputDir envs fs).raised = false := by
  have hstep := asrFileLoop_oserror_retry delete inputPath inputSize
    (outputDir ++ "/" ++ sessionId ++ splitextExt inputPath) envs 0 1 none fs
    0 0 [] (herr 0) (by omega)
  obtain ⟨fp1, fs1, ic1, e1⟩ := hstep
  obtain ⟨fp2, fs2, ic2, e2⟩ := asrFileLoop_oserror_last delete inputPath
    inputSize (outputDir ++ "/" ++ sessionId ++ splitextExt inputPath) envs 1
    fp1 fs1 ic1 1 ([] ++ [RETRY_DELAY]) (herr 1)
  have hmain : speech_to_text_from_audio_file delete inputPath true inputSize
      sessionId outputDir envs fs
      = { text := "", filePath := fp2, fs := fs2, inferCalls := ic2,
          attempts := 1 + 1, sleeps := [] ++ [RETRY_DELAY],
          raised := false } := by
    simp only [speech_to_text_from_audio_file, MAX_RETRIES]
    rw [show (supported_formats.contains
        (pyLower (splitextExt inputPath))) = true by
      simpa using hsupp]
    rw [show (2 : Nat) = 1 + 1 from rfl]
    rw [e1]
    simp only [Nat.zero_add]
    rw [e2]
  rw [hmain]
  exact ⟨rfl, rfl, rfl, rfl⟩

/-- Witness for `asr_file_all_oserror_two_attempts`: retention enabled,
disk headroom insufficient on every attempt. -/
theorem asr_file_all_oserror_two_attempts_witness :
    (speech_to_text_from_audio_file false "a.wav" true 10 "sid" "tmp"
        (fun _ => ⟨0, false, false, .ok "t"⟩) []).attempts = 2 ∧
    (speech_to_text_from_audio_file false "a.wav" true 10 "sid" "tmp"
        (fun _ => ⟨0, false, false, .ok "t"⟩) []).sleeps = [RETRY_DELAY] ∧
    (speech_to_text_from_audio_file false "a.wav" true 10 "sid" "tmp"
        (fun _ => ⟨0, false, false, .ok "t"⟩) []).text = "" ∧
    (speech_to_text_from_audio_file false "a.wav" true 10 "sid" "tmp"
        (fun _ => ⟨0, false, false, .ok "t"⟩) []).raised = false :=
  asr_file_all_oserror_two_attempts false "a.wav" 10 "sid" "tmp"
    (fun _ => ⟨0, false, false, .ok "t"⟩) [] (by decide)
    (fun _ => Or.inl (by norm_num))

/-- C10: with retention enabled (`delete_audio_file = False`), when the
copy/write of the audio into the output directory succeeds but the
subsequent inference raises, the call returns empty text together with
the non-null path of the already persisted artifact (`file_path` was
assigned before inference ran), in both the file and the stream
variant: an empty-text failure result does not imply a null artifact
path. -/
theorem asr_retention_failure_keeps_path (inputPath : String)
    (inputSize dataLen : Nat) (sessionId outputDir fileExt : String)
    (envs envs' : Nat → AsrAttemptEnv) (fs fs' : List String)
    (hsupp : pyLower (splitextExt inputPath) ∈ supported_formats)
    (hspace : ¬ (envs 0).freeSpace < inputSize * 2)
    (hcopy : ¬ (envs 0).copyFails = true)
    (hread : ¬ (envs 0).readFails = true)
    (hinf : (envs 0).infer = .otherErr)
    (hsupp' : pyLower fileExt ∈ supported_formats)
    (hspace' : ¬ (envs' 0).freeSpace < dataLen * 2)
    (hwrite' : ¬ (envs' 0).copyFails = true)
    (hinf' : (envs' 0).infer = .otherErr) :
    (speech_to_text_from_audio_file false inputPath true inputSize sessionId
        outputDir envs fs).text = "" ∧
    (speech_to_text_from_audio_file false inputPath true inputSize sessionId
        outputDir envs fs).filePath
      = some (outputDir ++ "/" ++ sessionId ++ splitextExt inputPath) ∧
    (speech_to_text_from_audio_stream false dataLen sessionId fileExt
        outputDir envs' fs').text = "" ∧
    (speech_to_text_from_audio_stream false dataLen sessionId fileExt
        outputDir envs' fs').filePath
      = some (outputDir ++ "/" ++ sessionId ++ fileExt) := by
  have key : speech_to_text_from_audio_file false inputPath true inputSize
      sessionId outputDir envs fs
      = { text := "",
          filePath :=
            some (outputDir ++ "/" ++ sessionId ++ splitextExt inputPath),
          fs := fsCreate (outputDir ++ "/" ++ sessionId ++
            splitextExt inputPath) fs,
          inferCalls := 1, attempts := 1, sleeps := [],
          raised := false } := by
    simp only [speech_to_text_from_audio_file, MAX_RETRIES]
    rw [show (supported_formats.contains
        (pyLower (splitextExt inputPath))) = true by
      simpa using hsupp]
    rw [asrFileLoop.eq_def]
    simp [hspace, hcopy, hread, hinf, fileCleanup]
  have key' : speech_to_text_from_audio_stream false dataLen sessionId
      fileExt outputDir envs' fs'
      = { text := "",
          filePath := some (outputDir ++ "/" ++ sessionId ++ fileExt),
          fs := fsCreate (outputDir ++ "/" ++ sessionId ++ fileExt) fs',
          inferCalls := 1, attempts := 1, sleeps := [],
          raised := false } := by
    simp only [speech_to_text_from_audio_stream, MAX_RETRIES]
    rw [show (supported_formats.contains (pyLower fileExt)) = true by
      simpa using hsupp']
    rw [asrStreamLoop.eq_def]
    simp [hspace', hwrite', hinf', streamCleanup]
  rw [key, key']
  exact ⟨rfl, rfl, rfl, rfl⟩

/-- Witness for `asr_retention_failure_keeps_path`: plenty of disk
space, successful copy/write, inference raising a plain exception. -/
theorem asr_retention_failure_keeps_path_witness :
    (speech_to_text_from_audio_file false "a.wav" true 10 "sid" "tmp"
        (fun _ => ⟨100, false, false, .otherErr⟩) []).text = "" ∧
    (speech_to_text_from_audio_file false "a.wav" true 10 "sid" "tmp"
        (fun _ => ⟨100, false, false, .otherErr⟩) []).filePath
      = some ("tmp" ++ "/" ++ "sid" ++ splitextExt "a.wav") ∧
    (speech_to_text_from_audio_stream false 10 "sid" ".wav" "tmp"
        (fun _ => ⟨100, false, false, .otherErr⟩) []).text = "" ∧
    (speech_to_text_from_audio_stream false 10 "sid" ".wav" "tmp"
        (fun _ => ⟨100, false, false, .otherErr⟩) []).filePath
      = some ("tmp" ++ "/" ++ "sid" ++ ".wav") :=
  asr_retention_failure_keeps_path "a.wav" 10 10 "sid" "tmp" ".wav"
    (fun _ => ⟨100, false, false, .otherErr⟩)
    (fun _ => ⟨100, false, false, .otherErr⟩) [] []
    (by decide) (by decide) (by decide) (by decide) rfl
    (by decide) (by decide) (by decide) rfl

end VoiceQA
